import Mathlib

/-!
Verification development for the INSY7314 payments portal: a shallow
embedding of the payment-route logic (`routes/payments.js`, mongoose
variant), the `Transaction` mongoose model (`server/models/Transaction.js`)
and the relevant parts of `server/middleware/inputValidation.js`.

Modelling conventions:
* JavaScript strings are modelled as lists of Unicode code points
  (`List Nat`), so `String.prototype.toUpperCase` / `trim` become list maps
  and drops over code points.
* JavaScript numbers holding currency values are modelled as exact
  rationals (`ℚ`); the route's `parseFloat` of a validated decimal string
  is the exact rational value of that decimal.
* Timestamps are naturals (milliseconds); the route's `today` /
  `tomorrow` midnight pair is a parameter `todayStart` and
  `todayStart + 86400000`.
* The persistence store is a list of transaction records; mongoose
  `save` is modelled by the pre-save hook followed by replacing the
  record with the same `id` in the store.
-/

namespace INSY

/-- Code points of a concrete Lean string, to write examples. -/
def codes (s : String) : List Nat := s.toList.map Char.toNat

/-- Model of a character's `toUpperCase`: ASCII lowercase letters map to
uppercase, every other code point is unchanged. -/
def jsToUpperChar (n : Nat) : Nat := if 97 ≤ n ∧ n ≤ 122 then n - 32 else n

/-- Model of `String.prototype.toUpperCase` over code points. -/
def jsToUpperCase (l : List Nat) : List Nat := l.map jsToUpperChar

/-- Code points removed by `String.prototype.trim` (ECMAScript WhiteSpace
and LineTerminator, the ASCII/core subset). -/
def jsIsWhite (n : Nat) : Bool :=
  decide (n = 9 ∨ n = 10 ∨ n = 11 ∨ n = 12 ∨ n = 13 ∨ n = 32 ∨ n = 160 ∨
          n = 8232 ∨ n = 8233 ∨ n = 65279)

/-- Model of `String.prototype.trim`: drop whitespace from the front,
then from the back. -/
def jsTrim (l : List Nat) : List Nat :=
  List.rdropWhile jsIsWhite (List.dropWhile jsIsWhite l)

/-- `swiftCode.trim().toUpperCase()` as performed by the make-payment
route before the format test. -/
def normalizeSwiftCode (l : List Nat) : List Nat := jsToUpperCase (jsTrim l)

/-- `[A-Z]` on a code point. -/
def isUpperLetter (n : Nat) : Bool := decide (65 ≤ n ∧ n ≤ 90)

/-- `[A-Z0-9]` on a code point. -/
def isUpperAlnum (n : Nat) : Bool :=
  isUpperLetter n || decide (48 ≤ n ∧ n ≤ 57)

/-- The regex `^[A-Z]{6}[A-Z0-9]{2,5}$` used by the route and by
`inputValidation.patterns.swiftCode`: total length 8–11, six uppercase
letters, then 2–5 uppercase alphanumerics. -/
def swiftPatternTest (l : List Nat) : Bool :=
  8 ≤ l.length && l.length ≤ 11 &&
    (l.take 6).all isUpperLetter && (l.drop 6).all isUpperAlnum

/-- Transaction status strings of the mongoose schema. -/
inductive Status where
  | PENDING | VERIFIED | PROCESSING | COMPLETED | REJECTED | CANCELLED
deriving DecidableEq

/-- The `Transaction` document (fields relevant to the lifecycle slice;
`ipAddress`, `userAgent`, `metadata` and `exchangeRate` are omitted as
pure metadata). -/
structure Transaction where
  id : Nat
  userId : Nat
  amount : ℚ
  currency : String
  provider : String
  recipientName : String
  recipientAccountNumber : String
  recipientBankCode : List Nat
  swiftCode : List Nat
  recipientBankName : String
  recipientBankAddress : Option String
  purpose : Option String
  reference : Option String
  status : Status
  fees : ℚ
  totalAmount : ℚ
  verificationCode : String
  verifiedAt : Option Nat
  processedAt : Option Nat
  completedAt : Option Nat
  rejectionReason : Option String
  createdAt : Nat
deriving DecidableEq

/-- The schema's `pre('save')` hook: recompute
`totalAmount = amount + fees` and generate a verification code when none
is set (`fresh` stands for the random `crypto.randomBytes` hex). -/
def preSaveHook (fresh : String) (t : Transaction) : Transaction :=
  { t with
    totalAmount := t.amount + t.fees
    verificationCode := if t.verificationCode = "" then fresh else t.verificationCode }

/-- `markAsVerified`: sets status and `verifiedAt`, then saves (the
pre-save hook runs). The source has no precondition check. -/
def markAsVerified (fresh : String) (t : Transaction) (now : Nat) : Transaction :=
  preSaveHook fresh { t with status := Status.VERIFIED, verifiedAt := some now }

/-- `markAsProcessing`: sets status and `processedAt`, then saves.
No precondition check in the source. -/
def markAsProcessing (fresh : String) (t : Transaction) (now : Nat) : Transaction :=
  preSaveHook fresh { t with status := Status.PROCESSING, processedAt := some now }

/-- `markAsCompleted`: sets status and `completedAt`, then saves.
No precondition check in the source. -/
def markAsCompleted (fresh : String) (t : Transaction) (now : Nat) : Transaction :=
  preSaveHook fresh { t with status := Status.COMPLETED, completedAt := some now }

/-- `markAsRejected(reason)`: sets status and `rejectionReason`, then
saves. No precondition check in the source. -/
def markAsRejected (fresh : String) (t : Transaction) (reason : String) : Transaction :=
  preSaveHook fresh { t with status := Status.REJECTED, rejectionReason := some reason }

/-- `markAsCancelled`: sets status, then saves. No precondition check in
the source. -/
def markAsCancelled (fresh : String) (t : Transaction) : Transaction :=
  preSaveHook fresh { t with status := Status.CANCELLED }

/-- Fee tiers of the make-payment route: `<= 1000 → 15`,
`else <= 10000 → 25`, `else 50`. -/
def calculateFees (amountNum : ℚ) : ℚ :=
  if amountNum ≤ 1000 then 15 else if amountNum ≤ 10000 then 25 else 50

/-- The body of the POST /make-payment request, after destructuring and
`parseFloat` of the amount (`amount` is its exact numeric value). -/
structure PaymentRequest where
  amount : ℚ
  currency : String
  provider : Option String
  recipientName : String
  recipientAccountNumber : String
  swiftCode : List Nat
  recipientBankName : String
  recipientBankAddress : Option String
  purpose : Option String
  reference : Option String
deriving DecidableEq

/-- A JSON error response body `\x7b success: false, error \x7d` as
produced by the route's failure paths. -/
structure ErrorBody where
  success : Bool
  error : String
deriving DecidableEq

/-- Outcome of the make-payment route: HTTP 400 with an error body, or
HTTP 201 with the created transaction. -/
inductive MakePaymentResult where
  | badRequest (body : ErrorBody)
  | created (t : Transaction)
deriving DecidableEq

/-- Statuses counted by the daily-limit query
(`status: $in [PENDING, VERIFIED, PROCESSING, COMPLETED]`). -/
def countsTowardDailyLimit (s : Status) : Bool :=
  decide (s = Status.PENDING ∨ s = Status.VERIFIED ∨ s = Status.PROCESSING ∨
      s = Status.COMPLETED)

/-- One local calendar day in milliseconds (`tomorrow = today + 1 day`). -/
def dayMillis : Nat := 86400000

/-- The `Transaction.find` daily-limit query: this user's transactions in
a counted status created in `[todayStart, todayStart + 1 day)`. -/
def todayTransactionsOf (store : List Transaction) (userId todayStart : Nat) :
    List Transaction :=
  store.filter fun tx =>
    decide (tx.userId = userId) && countsTowardDailyLimit tx.status &&
      decide (todayStart ≤ tx.createdAt ∧ tx.createdAt < todayStart + dayMillis)

/-- `todayTransactions.reduce((sum, tx) => sum + parseFloat(tx.amount), 0)`. -/
def todayTotalOf (store : List Transaction) (userId todayStart : Nat) : ℚ :=
  List.foldl (fun sum tx => sum + tx.amount) 0
    (todayTransactionsOf store userId todayStart)

/-- The hard-coded daily limit of the route (`const dailyLimit = 50000.00`). -/
def dailyLimit : ℚ := 50000

/-- Error body of the amount-range rejection
(`Amount must be between min and max`). -/
def amountRangeBody (minAmount maxAmount : ℚ) : ErrorBody :=
  ⟨false, "Amount must be between " ++ toString minAmount ++ " and " ++
    toString maxAmount⟩

/-- Error body of the daily-limit rejection. -/
def dailyLimitBody : ErrorBody := ⟨false, "Daily transaction limit exceeded"⟩

/-- Error body of the missing-SWIFT rejection. -/
def swiftRequiredBody : ErrorBody := ⟨false, "SWIFT code is required"⟩

/-- Error body of the malformed-SWIFT rejection. -/
def swiftFormatBody : ErrorBody :=
  ⟨false, "Invalid SWIFT code format. Must be 8-11 characters: 6 letters followed by 2-5 alphanumeric characters"⟩

/-- The transaction document built by `Transaction.create` in the route
(status defaults to PENDING; `create` runs the pre-save hook). -/
def routeTransaction (userId : Nat) (req : PaymentRequest)
    (newId now : Nat) (fresh : String) : Transaction :=
  preSaveHook fresh
    { id := newId
      userId := userId
      amount := req.amount
      currency := req.currency
      provider := req.provider.getD "SWIFT"
      recipientName := req.recipientName
      recipientAccountNumber := req.recipientAccountNumber
      recipientBankCode := normalizeSwiftCode req.swiftCode
      swiftCode := normalizeSwiftCode req.swiftCode
      recipientBankName := req.recipientBankName
      recipientBankAddress := req.recipientBankAddress
      purpose := req.purpose
      reference := req.reference
      status := Status.PENDING
      fees := calculateFees req.amount
      totalAmount := req.amount + calculateFees req.amount
      verificationCode := ""
      verifiedAt := none
      processedAt := none
      completedAt := none
      rejectionReason := none
      createdAt := now }

/-- POST /api/payments/make-payment (mongoose router): range check, then
daily-limit check, then fee computation, then SWIFT
presence/normalization/format checks, then `Transaction.create`.
Returns the HTTP outcome and the store after the request. -/
def makePayment (store : List Transaction) (userId : Nat)
    (req : PaymentRequest) (minAmount maxAmount : ℚ)
    (todayStart now newId : Nat) (fresh : String) :
    MakePaymentResult × List Transaction :=
  if req.amount < minAmount ∨ maxAmount < req.amount then
    (MakePaymentResult.badRequest (amountRangeBody minAmount maxAmount), store)
  else if dailyLimit < todayTotalOf store userId todayStart + req.amount then
    (MakePaymentResult.badRequest dailyLimitBody, store)
  else if req.swiftCode = [] then
    (MakePaymentResult.badRequest swiftRequiredBody, store)
  else if swiftPatternTest (normalizeSwiftCode req.swiftCode) = false then
    (MakePaymentResult.badRequest swiftFormatBody, store)
  else
    let t := routeTransaction userId req newId now fresh
    (MakePaymentResult.created t, store ++ [t])

/-- `Transaction.findOne(\x7b _id: id, userId \x7d)`: first record matching
both the id and the requesting user's id. -/
def findOneByIdAndUser (store : List Transaction) (id userId : Nat) :
    Option Transaction :=
  store.find? fun tx => decide (tx.id = id ∧ tx.userId = userId)

/-- `save` of an updated document: replace the record with the same id. -/
def storeSave (store : List Transaction) (t : Transaction) : List Transaction :=
  store.map fun u => if u.id = t.id then t else u

/-- Outcome of GET /api/payments/transactions/:id. -/
inductive GetResult where
  | notFound (body : ErrorBody)
  | ok (t : Transaction)
deriving DecidableEq

/-- Error body of the missing-transaction rejection. -/
def notFoundBody : ErrorBody := ⟨false, "Transaction not found"⟩

/-- GET /api/payments/transactions/:id: lookup scoped by `_id` and the
requesting user's id; 404 when no such record. -/
def getTransactionRoute (store : List Transaction) (userId id : Nat) : GetResult :=
  match findOneByIdAndUser store id userId with
  | none => GetResult.notFound notFoundBody
  | some tx => GetResult.ok tx

/-- Outcome of PUT /api/payments/transactions/:id/cancel. -/
inductive CancelResult where
  | notFound (body : ErrorBody)
  | badRequest (body : ErrorBody)
  | ok (status : Status)
deriving DecidableEq

/-- Error body of the non-pending cancellation rejection. -/
def onlyPendingBody : ErrorBody :=
  ⟨false, "Only pending transactions can be cancelled"⟩

/-- PUT /api/payments/transactions/:id/cancel: lookup scoped by `_id` and
user id (404 when absent), 400 unless status is PENDING, otherwise
`markAsCancelled` and save. Returns the outcome and the store after. -/
def cancelRoute (store : List Transaction) (userId id : Nat) (fresh : String) :
    CancelResult × List Transaction :=
  match findOneByIdAndUser store id userId with
  | none => (CancelResult.notFound notFoundBody, store)
  | some tx =>
    if tx.status ≠ Status.PENDING then
      (CancelResult.badRequest onlyPendingBody, store)
    else
      let tx' := markAsCancelled fresh tx
      (CancelResult.ok tx'.status, storeSave store tx')

/-! Helper lemmas about the string model. -/

theorem jsToUpperChar_idem (n : Nat) :
    jsToUpperChar (jsToUpperChar n) = jsToUpperChar n := by
  unfold jsToUpperChar
  by_cases h : 97 ≤ n ∧ n ≤ 122
  · rw [if_pos h, if_neg (by omega)]
  · rw [if_neg h, if_neg h]

theorem jsIsWhite_jsToUpperChar (n : Nat) :
    jsIsWhite (jsToUpperChar n) = jsIsWhite n := by
  unfold jsToUpperChar jsIsWhite
  by_cases h : 97 ≤ n ∧ n ≤ 122
  · rw [if_pos h]
    simp only [decide_eq_decide]
    omega
  · rw [if_neg h]

theorem rdropWhile_map {α β : Type} (f : α → β) (p : β → Bool) (l : List α) :
    List.rdropWhile p (List.map f l) = List.map f (List.rdropWhile (p ∘ f) l) := by
  simp [List.rdropWhile, ← List.map_reverse, List.dropWhile_map]

theorem jsTrim_jsToUpperCase (l : List Nat) :
    jsTrim (jsToUpperCase l) = jsToUpperCase (jsTrim l) := by
  have hw : (jsIsWhite ∘ jsToUpperChar) = jsIsWhite := by
    funext n
    exact jsIsWhite_jsToUpperChar n
  unfold jsTrim jsToUpperCase
  rw [List.dropWhile_map, hw, rdropWhile_map, hw]

theorem jsToUpperCase_idem (l : List Nat) :
    jsToUpperCase (jsToUpperCase l) = jsToUpperCase l := by
  unfold jsToUpperCase
  rw [List.map_map]
  exact List.map_congr_left fun n _ => jsToUpperChar_idem n

theorem jsTrim_idem (l : List Nat) : jsTrim (jsTrim l) = jsTrim l := by
  unfold jsTrim
  obtain ⟨tl, htl⟩ := List.rdropWhile_prefix jsIsWhite (List.dropWhile jsIsWhite l)
  cases hr : List.rdropWhile jsIsWhite (List.dropWhile jsIsWhite l) with
  | nil => simp
  | cons a as =>
    have hA : List.dropWhile jsIsWhite l = a :: (as ++ tl) := by
      rw [← htl, hr]
      rfl
    have ha : jsIsWhite a = false := by
      have h2 := List.head?_dropWhile_not jsIsWhite l
      rw [hA] at h2
      simpa using h2
    rw [List.dropWhile_cons, if_neg (by simp [ha]), ← hr,
      List.rdropWhile_idempotent]

/-! The claims. -/

/-- The stored-total invariant `totalAmount = amount + fees`. -/
def totalInvariant (t : Transaction) : Prop :=
  t.totalAmount = t.amount + t.fees

/-- C1: for every transaction, at creation and after every
status-transition operation (verify, beginProcessing, complete, reject,
cancel) that saves the record, the stored `totalAmount` equals
`amount + fees` (the pre-save hook recomputes it on every save). -/
theorem c1_totalAmount_invariant (t : Transaction) (now : Nat)
    (reason fresh : String) (userId newId created : Nat)
    (req : PaymentRequest) :
    totalInvariant (routeTransaction userId req newId created fresh) ∧
    totalInvariant (markAsVerified fresh t now) ∧
    totalInvariant (markAsProcessing fresh t now) ∧
    totalInvariant (markAsCompleted fresh t now) ∧
    totalInvariant (markAsRejected fresh t reason) ∧
    totalInvariant (markAsCancelled fresh t) := by
  simp [totalInvariant, routeTransaction, markAsVerified, markAsProcessing,
    markAsCompleted, markAsRejected, markAsCancelled, preSaveHook]

/-- C2: the fee is the deterministic step function over the validated
amount (15 up to 1000, 25 up to 10000, 50 above), exactly at and around
the boundary amounts 999.99, 1000.00, 1000.01, 9999.99, 10000.00,
10000.01, and the created transaction's `totalAmount` equals
`amount + fee`. -/
theorem c2_fee_tiers (a : ℚ) :
    (a ≤ 1000 → calculateFees a = 15) ∧
    (1000 < a → a ≤ 10000 → calculateFees a = 25) ∧
    (10000 < a → calculateFees a = 50) ∧
    calculateFees (999.99 : ℚ) = 15 ∧
    calculateFees (1000.00 : ℚ) = 15 ∧
    calculateFees (1000.01 : ℚ) = 25 ∧
    calculateFees (9999.99 : ℚ) = 25 ∧
    calculateFees (10000.00 : ℚ) = 25 ∧
    calculateFees (10000.01 : ℚ) = 50 ∧
    ∀ (userId newId now : Nat) (req : PaymentRequest) (fresh : String),
      (routeTransaction userId req newId now fresh).totalAmount =
        req.amount + calculateFees req.amount := by
  refine ⟨?_, ?_, ?_, ?_, ?_, ?_, ?_, ?_, ?_, ?_⟩
  · intro h
    rw [calculateFees, if_pos h]
  · intro h1 h2
    rw [calculateFees, if_neg (by linarith), if_pos h2]
  · intro h
    rw [calculateFees, if_neg (by linarith), if_neg (by linarith)]
  · norm_num [calculateFees]
  · norm_num [calculateFees]
  · norm_num [calculateFees]
  · norm_num [calculateFees]
  · norm_num [calculateFees]
  · norm_num [calculateFees]
  · intro userId newId now req fresh
    simp [routeTransaction, preSaveHook]

/-- Witness for C2 at concrete amounts in each tier. -/
theorem c2_fee_tiers_witness :
    calculateFees 500 = 15 ∧ calculateFees 5000 = 25 ∧
      calculateFees 20000 = 50 :=
  ⟨(c2_fee_tiers 500).1 (by norm_num),
   (c2_fee_tiers 5000).2.1 (by norm_num) (by norm_num),
   (c2_fee_tiers 20000).2.2.1 (by norm_num)⟩

/-! Concrete fixtures for witnesses and counterexamples. -/

/-- The spec's end-to-end example request with a given amount
(USD, John Smith, swift "chasus33"). -/
def exReqAmount (a : ℚ) : PaymentRequest :=
  { amount := a
    currency := "USD"
    provider := none
    recipientName := "John Smith"
    recipientAccountNumber := "ABCD12345678"
    swiftCode := codes "chasus33"
    recipientBankName := "Chase Bank"
    recipientBankAddress := none
    purpose := none
    reference := none }

/-- The example request at amount 500.00. -/
def exReq : PaymentRequest := exReqAmount 500

/-- `exReq` with an out-of-range amount and a malformed SWIFT code:
two invalid fields at once. -/
def exBadReq : PaymentRequest :=
  { amount := 1/2
    currency := "USD"
    provider := none
    recipientName := "John Smith"
    recipientAccountNumber := "ABCD12345678"
    swiftCode := codes "xx"
    recipientBankName := "Chase Bank"
    recipientBankAddress := none
    purpose := none
    reference := none }

/-- A pending transaction of user 7 (id 1, created at t = 1000,
amount 500.00, fee 15.00). -/
def exPending : Transaction :=
  { id := 1
    userId := 7
    amount := 500
    currency := "USD"
    provider := "SWIFT"
    recipientName := "John Smith"
    recipientAccountNumber := "ABCD12345678"
    recipientBankCode := codes "CHASUS33"
    swiftCode := codes "CHASUS33"
    recipientBankName := "Chase Bank"
    recipientBankAddress := none
    purpose := none
    reference := none
    status := Status.PENDING
    fees := 15
    totalAmount := 515
    verificationCode := "AB12CD"
    verifiedAt := none
    processedAt := none
    completedAt := none
    rejectionReason := none
    createdAt := 1000 }

/-- A same-day pending transaction of 49900.00 by user 7 (id 2). -/
def exBig : Transaction :=
  { exPending with id := 2, amount := 49900, fees := 50, totalAmount := 49950 }

/-- `exPending` moved to the terminal status COMPLETED. -/
def exCompleted : Transaction := { exPending with status := Status.COMPLETED }

/-- C3: with the amount in range, a submission whose amount `A` plus the
user's same-day sum `S` (over statuses PENDING, VERIFIED, PROCESSING,
COMPLETED within `[midnight, midnight + 24h)`) exceeds 50000.00 is
rejected with the daily-limit error and nothing is persisted; when
`S + A ≤ 50000.00` and the SWIFT checks pass, a PENDING transaction is
created and appended to the store. -/
theorem c3_daily_limit (store : List Transaction) (userId : Nat)
    (req : PaymentRequest) (minA maxA : ℚ) (todayStart now newId : Nat)
    (fresh : String) (hmin : minA ≤ req.amount) (hmax : req.amount ≤ maxA) :
    (dailyLimit < todayTotalOf store userId todayStart + req.amount →
      makePayment store userId req minA maxA todayStart now newId fresh =
        (MakePaymentResult.badRequest dailyLimitBody, store)) ∧
    (todayTotalOf store userId todayStart + req.amount ≤ dailyLimit →
      req.swiftCode ≠ [] →
      swiftPatternTest (normalizeSwiftCode req.swiftCode) = true →
      makePayment store userId req minA maxA todayStart now newId fresh =
        (MakePaymentResult.created (routeTransaction userId req newId now fresh),
          store ++ [routeTransaction userId req newId now fresh]) ∧
      (routeTransaction userId req newId now fresh).status = Status.PENDING) := by
  have hrange : ¬(req.amount < minA ∨ maxA < req.amount) := by
    push_neg
    exact ⟨hmin, hmax⟩
  constructor
  · intro hlim
    unfold makePayment
    rw [if_neg hrange, if_pos hlim]
  · intro hlim hsw hpat
    unfold makePayment
    rw [if_neg hrange, if_neg (not_lt.mpr hlim), if_neg hsw,
      if_neg (by simp [hpat])]
    exact ⟨rfl, by simp [routeTransaction, preSaveHook]⟩

/-- Witness for C3: user 7 already has 49900.00 pending today; a further
100.00 (sum exactly 50000.00) is accepted as a PENDING transaction. -/
theorem c3_daily_limit_witness :
    makePayment [exBig] 7 (exReqAmount 100) 1 100000 0 5 3 "AB12CD" =
      (MakePaymentResult.created
          (routeTransaction 7 (exReqAmount 100) 3 5 "AB12CD"),
        [exBig] ++ [routeTransaction 7 (exReqAmount 100) 3 5 "AB12CD"]) ∧
    (routeTransaction 7 (exReqAmount 100) 3 5 "AB12CD").status =
      Status.PENDING :=
  (c3_daily_limit [exBig] 7 (exReqAmount 100) 1 100000 0 5 3 "AB12CD"
      (by norm_num [exReqAmount]) (by norm_num [exReqAmount])).2
    (by norm_num [todayTotalOf, todayTransactionsOf, List.filter, List.foldl,
      exBig, exPending, exReqAmount, countsTowardDailyLimit, dayMillis,
      dailyLimit])
    (by decide) (by decide)

/-- C4 counterexample: `markAsVerified` applied to a transaction already
in the terminal status COMPLETED does not fail and does not leave the
record unchanged — it silently overwrites the status with VERIFIED
(the model methods have no precondition check at all). -/
theorem c4_guard_counterexample :
    exCompleted.status = Status.COMPLETED ∧
    (markAsVerified "Z9" exCompleted 99).status = Status.VERIFIED ∧
    markAsVerified "Z9" exCompleted 99 ≠ exCompleted := by
  refine ⟨rfl, rfl, fun h => ?_⟩
  exact absurd (congrArg Transaction.status h) (by decide)

/-- C4 amended: the five model-level transition methods apply
unconditionally from any current status (including terminal ones),
silently overwriting the status with no InvalidStateTransition error;
only the cancel endpoint checks the current status, failing with the
only-pending error body and leaving the store unchanged when the found
transaction is not PENDING. -/
theorem c4_transitions_unconditional (t : Transaction) (now : Nat)
    (reason fresh : String) :
    (markAsVerified fresh t now).status = Status.VERIFIED ∧
    (markAsProcessing fresh t now).status = Status.PROCESSING ∧
    (markAsCompleted fresh t now).status = Status.COMPLETED ∧
    (markAsRejected fresh t reason).status = Status.REJECTED ∧
    (markAsCancelled fresh t).status = Status.CANCELLED ∧
    ∀ (store : List Transaction) (userId id : Nat) (tx : Transaction),
      findOneByIdAndUser store id userId = some tx →
      tx.status ≠ Status.PENDING →
      cancelRoute store userId id fresh =
        (CancelResult.badRequest onlyPendingBody, store) := by
  refine ⟨rfl, rfl, rfl, rfl, rfl, ?_⟩
  intro store userId id tx hfind hnp
  unfold cancelRoute
  rw [hfind]
  simp [hnp]

/-- Witness for C4 amended: cancelling the COMPLETED transaction is
refused and the store is unchanged. -/
theorem c4_transitions_unconditional_witness :
    cancelRoute [exCompleted] 7 1 "Z9" =
      (CancelResult.badRequest onlyPendingBody, [exCompleted]) :=
  (c4_transitions_unconditional exCompleted 0 "r" "Z9").2.2.2.2.2
    [exCompleted] 7 1 exCompleted rfl (by decide)

/-- C5: when the scoped lookup finds the transaction, the cancel route
succeeds and moves it to CANCELLED exactly when its status is PENDING;
for every other status it fails with the only-pending error and the
store (hence the transaction) is unchanged. -/
theorem c5_cancel_iff_pending (store : List Transaction) (userId id : Nat)
    (fresh : String) (t : Transaction)
    (hfind : findOneByIdAndUser store id userId = some t) :
    (t.status = Status.PENDING →
      cancelRoute store userId id fresh =
        (CancelResult.ok Status.CANCELLED,
          storeSave store (markAsCancelled fresh t)) ∧
      (markAsCancelled fresh t).status = Status.CANCELLED) ∧
    (t.status ≠ Status.PENDING →
      cancelRoute store userId id fresh =
        (CancelResult.badRequest onlyPendingBody, store)) := by
  constructor
  · intro hp
    unfold cancelRoute
    rw [hfind]
    simp [hp, markAsCancelled, preSaveHook]
  · intro hnp
    unfold cancelRoute
    rw [hfind]
    simp [hnp]

/-- Witness for C5: the pending example transaction is cancelled, and a
VERIFIED copy of it cannot be (store unchanged). -/
theorem c5_cancel_iff_pending_witness :
    (cancelRoute [exPending] 7 1 "Z9" =
      (CancelResult.ok Status.CANCELLED,
        storeSave [exPending] (markAsCancelled "Z9" exPending)) ∧
      (markAsCancelled "Z9" exPending).status = Status.CANCELLED) ∧
    cancelRoute [{ exPending with status := Status.VERIFIED }] 7 1 "Z9" =
      (CancelResult.badRequest onlyPendingBody,
        [{ exPending with status := Status.VERIFIED }]) :=
  ⟨(c5_cancel_iff_pending [exPending] 7 1 "Z9" exPending rfl).1 rfl,
   (c5_cancel_iff_pending [{ exPending with status := Status.VERIFIED }] 7 1
      "Z9" { exPending with status := Status.VERIFIED } rfl).2
      (by decide)⟩

/-- C6: SWIFT normalization (`trim` then uppercase) is idempotent;
"chasus33" and "CHASUS33" both normalize to "CHASUS33", which passes the
format test, and the created transaction stores the normalized value. -/
theorem c6_swift_normalization :
    (∀ l : List Nat,
      normalizeSwiftCode (normalizeSwiftCode l) = normalizeSwiftCode l) ∧
    normalizeSwiftCode (codes "chasus33") = codes "CHASUS33" ∧
    normalizeSwiftCode (codes "CHASUS33") = codes "CHASUS33" ∧
    swiftPatternTest (normalizeSwiftCode (codes "chasus33")) = true ∧
    (routeTransaction 7 exReq 1 1000 "AB12CD").swiftCode = codes "CHASUS33" ∧
    (routeTransaction 7 { exReq with swiftCode := codes "CHASUS33" } 1 1000
        "AB12CD").swiftCode = codes "CHASUS33" ∧
    ∀ (u newId now : Nat) (req : PaymentRequest) (fresh : String),
      (routeTransaction u req newId now fresh).swiftCode =
        normalizeSwiftCode req.swiftCode := by
  refine ⟨?_, by decide, by decide, by decide, by decide, by decide, ?_⟩
  · intro l
    unfold normalizeSwiftCode
    rw [jsTrim_jsToUpperCase, jsTrim_idem, jsToUpperCase_idem]
  · intro u newId now req fresh
    simp [routeTransaction, preSaveHook]

/-- C7: a submitted amount below `minAmount` or above `maxAmount` is
rejected with the range error before any store access, and the store is
unchanged (no transaction persisted). -/
theorem c7_range_rejection (store : List Transaction) (userId : Nat)
    (req : PaymentRequest) (minA maxA : ℚ) (todayStart now newId : Nat)
    (fresh : String) (h : req.amount < minA ∨ maxA < req.amount) :
    makePayment store userId req minA maxA todayStart now newId fresh =
      (MakePaymentResult.badRequest (amountRangeBody minA maxA), store) := by
  unfold makePayment
  rw [if_pos h]

/-- Witness for C7: the spec's 100001.00 example exceeds the default
maximum of 100000.00 and is rejected with the store unchanged. -/
theorem c7_range_rejection_witness :
    makePayment [exBig] 7 { exReq with amount := 100001 } 1 100000 0 5 3
        "AB12CD" =
      (MakePaymentResult.badRequest (amountRangeBody 1 100000), [exBig]) :=
  c7_range_rejection [exBig] 7 { exReq with amount := 100001 } 1 100000 0 5 3
    "AB12CD" (Or.inr (by norm_num))

/-- C8 counterexample: two daily-limit rejections with different
attempted amounts and different remaining headroom produce the identical
fixed error body, so the error reports neither the attempted amount nor
the available remainder — only the generic message. -/
theorem c8_error_fields_counterexample :
    (makePayment [exBig] 7 (exReqAmount 200) 1 100000 0 5 3 "AB12CD").1 =
      MakePaymentResult.badRequest dailyLimitBody ∧
    (makePayment [] 7 (exReqAmount 60000) 1 100000 0 5 3 "AB12CD").1 =
      MakePaymentResult.badRequest dailyLimitBody ∧
    (exReqAmount 200).amount ≠ (exReqAmount 60000).amount ∧
    todayTotalOf [exBig] 7 0 ≠ todayTotalOf [] 7 0 ∧
    dailyLimitBody.error = "Daily transaction limit exceeded" := by
  refine ⟨?_, ?_, by norm_num [exReqAmount], ?_, rfl⟩
  · norm_num [makePayment, todayTotalOf, todayTransactionsOf, List.filter,
      List.foldl, exBig, exPending, exReqAmount, countsTowardDailyLimit,
      dayMillis, dailyLimit]
  · norm_num [makePayment, todayTotalOf, todayTransactionsOf, List.filter,
      List.foldl, exReqAmount, dailyLimit]
  · norm_num [todayTotalOf, todayTransactionsOf, List.filter, List.foldl,
      exBig, exPending, countsTowardDailyLimit, dayMillis]

/-- C8 amended: every daily-limit rejection carries only the fixed
generic body (success = false, error = "Daily transaction limit
exceeded") with no limit, attempted or available fields, and leaves the
store unchanged. -/
theorem c8_generic_daily_error (store : List Transaction) (userId : Nat)
    (req : PaymentRequest) (minA maxA : ℚ) (todayStart now newId : Nat)
    (fresh : String) (hmin : minA ≤ req.amount) (hmax : req.amount ≤ maxA)
    (hlim : dailyLimit < todayTotalOf store userId todayStart + req.amount) :
    makePayment store userId req minA maxA todayStart now newId fresh =
      (MakePaymentResult.badRequest dailyLimitBody, store) ∧
    dailyLimitBody.error = "Daily transaction limit exceeded" := by
  refine ⟨?_, rfl⟩
  unfold makePayment
  rw [if_neg (by push_neg; exact ⟨hmin, hmax⟩), if_pos hlim]

/-- Witness for C8 amended: 49900.00 pending plus an attempted 200.00 is
rejected with the generic body. -/
theorem c8_generic_daily_error_witness :
    makePayment [exBig] 7 (exReqAmount 200) 1 100000 0 5 3 "AB12CD" =
      (MakePaymentResult.badRequest dailyLimitBody, [exBig]) ∧
    dailyLimitBody.error = "Daily transaction limit exceeded" :=
  c8_generic_daily_error [exBig] 7 (exReqAmount 200) 1 100000 0 5 3 "AB12CD"
    (by norm_num [exReqAmount]) (by norm_num [exReqAmount])
    (by norm_num [todayTotalOf, todayTransactionsOf, List.filter, List.foldl,
      exBig, exPending, exReqAmount, countsTowardDailyLimit, dayMillis,
      dailyLimit])

/-- C9 counterexample: a request with two invalid fields (amount 0.50
below the minimum and SWIFT code "xx" malformed) is rejected with only
the amount-range message — not a list of per-field violations; the SWIFT
violation is only reported when the amount is fixed. -/
theorem c9_fail_fast_counterexample :
    makePayment [] 7 exBadReq 1 100000 0 5 3 "AB12CD" =
      (MakePaymentResult.badRequest (amountRangeBody 1 100000), []) ∧
    swiftPatternTest (normalizeSwiftCode exBadReq.swiftCode) = false ∧
    makePayment [] 7 { exBadReq with amount := 500 } 1 100000 0 5 3
        "AB12CD" =
      (MakePaymentResult.badRequest swiftFormatBody, []) ∧
    amountRangeBody 1 100000 ≠ swiftFormatBody := by
  have hsw : swiftPatternTest (normalizeSwiftCode (codes "xx")) = false := by
    decide
  have hne : ¬(codes "xx" = ([] : List Nat)) := by decide
  refine ⟨?_, hsw, ?_, ?_⟩
  · norm_num [makePayment, exBadReq]
  · norm_num [makePayment, exBadReq, todayTotalOf, todayTransactionsOf,
      List.filter, List.foldl, dailyLimit, hne, hsw]
  · intro h
    have h2 := congrArg String.data (congrArg ErrorBody.error h)
    simp only [amountRangeBody, swiftFormatBody, String.data_append] at h2
    have h3 := congrArg List.head? h2
    simp at h3

/-- C9 amended: the make-payment route validates sequentially and
fail-fast — whenever the amount is out of range, the response is exactly
the single amount-range error even when the SWIFT code is also invalid,
and it is never the SWIFT-format error body. -/
theorem c9_first_violation_only (store : List Transaction) (userId : Nat)
    (req : PaymentRequest) (minA maxA : ℚ) (todayStart now newId : Nat)
    (fresh : String) (hamt : req.amount < minA ∨ maxA < req.amount)
    (hsw : swiftPatternTest (normalizeSwiftCode req.swiftCode) = false) :
    makePayment store userId req minA maxA todayStart now newId fresh =
      (MakePaymentResult.badRequest (amountRangeBody minA maxA), store) ∧
    swiftPatternTest (normalizeSwiftCode req.swiftCode) = false ∧
    amountRangeBody minA maxA ≠ swiftFormatBody := by
  refine ⟨?_, hsw, ?_⟩
  · unfold makePayment
    rw [if_pos hamt]
  · intro h
    have h2 := congrArg String.data (congrArg ErrorBody.error h)
    simp only [amountRangeBody, swiftFormatBody, String.data_append] at h2
    have h3 := congrArg List.head? h2
    simp at h3

/-- Witness for C9 amended: the doubly invalid request yields only the
amount error. -/
theorem c9_first_violation_only_witness :
    makePayment [] 7 exBadReq 1 100000 0 5 3 "AB12CD" =
      (MakePaymentResult.badRequest (amountRangeBody 1 100000), []) ∧
    swiftPatternTest (normalizeSwiftCode exBadReq.swiftCode) = false ∧
    amountRangeBody 1 100000 ≠ swiftFormatBody :=
  c9_first_violation_only [] 7 exBadReq 1 100000 0 5 3 "AB12CD"
    (Or.inl (by norm_num [exBadReq])) (by decide)

/-- C10: for a transaction owned by someone else (ids being unique in
the store), both the fetch-by-id and the cancel routes return the
not-found error — the lookup is scoped by the requesting user's id — the
store is unchanged, and no status-based error is produced. -/
theorem c10_ownership_scoping (store : List Transaction) (u : Nat)
    (fresh : String) (t : Transaction)
    (huniq : ∀ t1 ∈ store, ∀ t2 ∈ store, t1.id = t2.id → t1 = t2)
    (ht : t ∈ store) (hown : t.userId ≠ u) :
    getTransactionRoute store u t.id = GetResult.notFound notFoundBody ∧
    cancelRoute store u t.id fresh =
      (CancelResult.notFound notFoundBody, store) := by
  have hnone : findOneByIdAndUser store t.id u = none := by
    unfold findOneByIdAndUser
    rw [List.find?_eq_none]
    intro x hx
    simp only [decide_eq_true_eq, not_and]
    intro hid huid
    exact hown ((huniq x hx t ht hid) ▸ huid)
  constructor
  · unfold getTransactionRoute
    rw [hnone]
  · unfold cancelRoute
    rw [hnone]

/-- Witness for C10: user 9 can neither fetch nor cancel user 7's
pending transaction; both routes answer not-found. -/
theorem c10_ownership_scoping_witness :
    getTransactionRoute [exPending] 9 exPending.id =
      GetResult.notFound notFoundBody ∧
    cancelRoute [exPending] 9 exPending.id "Z9" =
      (CancelResult.notFound notFoundBody, [exPending]) :=
  c10_ownership_scoping [exPending] 9 "Z9" exPending
    (by
      intro t1 h1 t2 h2 _
      rw [List.mem_singleton] at h1 h2
      rw [h1, h2])
    (List.mem_singleton.mpr rfl) (by decide)

end INSY
